/-
Verification of the Cortex Lattice grading engine (`src/executor/run_tests.py`)
against its design specification.

The executor is shallowly embedded: Python's dynamic value domain becomes the
nested inductive `Value`; `float` values are modelled as exact rationals (the
rational denoted by the IEEE-754 double), and Python's `round(x, n)` becomes
round-half-to-even on rationals.  File-system effects (loading the problem
file, reading the candidate source) are abstracted as `Except`-valued inputs
to `run_tests`; the behaviour of the untrusted candidate callable is an
oracle mapping the resolved function name and a test case to a call outcome
(normal return, raised exception — with `Exception`-derived and
`BaseException`-derived raises kept distinct, because the executor's
except-Exception boundary catches only the former — or timeout) together
with the measured wall-clock duration of the call.  The `signal.alarm`
watchdog is modelled by recording, per test, the ordered list of `alarm(n)`
calls the code executes.
-/
import Mathlib

namespace CortexLattice

/-! ### Python value domain

Tagged variant for the dynamically-typed values flowing through the executor
(test inputs, expected values, candidate outputs): numbers, strings,
booleans, nested sequences/mappings, null.  Tuples are kept distinct from
lists because `normalize_output` converts tuples to lists. -/

inductive Value where
  | null : Value
  | bool : Bool → Value
  | int : ℤ → Value
  | float : ℚ → Value
  | str : String → Value
  | list : List Value → Value
  | tuple : List Value → Value
  | dict : List (String × Value) → Value
deriving Repr

/-! ### Python `round` on rationals

`round(x, nd)` in Python rounds half to even.  On the exact rational carried
by a float this is `roundHalfEven (x * 10^nd) / 10^nd`.  The arithmetic is
kept on numerator/denominator integers so that every operation reduces in
the kernel: with `q = n/d` (`d > 0`), the floor is `f = n.fdiv d`, the
fractional part is `(n - f*d)/d`, and comparing it with `1/2` is comparing
`2*(n - f*d)` with `d`. -/

/-- Round a rational to the nearest integer, ties to even (Python's
rounding mode). -/
def roundHalfEven (q : ℚ) : ℤ :=
  let f := Int.fdiv q.num (q.den : ℤ)
  let rem2 := 2 * (q.num - f * (q.den : ℤ))
  if rem2 < (q.den : ℤ) then f
  else if (q.den : ℤ) < rem2 then f + 1
  else if f % 2 = 0 then f else f + 1

/-- Multiplication `q * p` for a natural scale factor `p`, via the
normalizing constructor `mkRat` (kernel-reducible, unlike the ring
multiplication on `ℚ`). -/
def qscale (q : ℚ) (p : ℕ) : ℚ := mkRat (q.num * (p : ℤ)) q.den

/-- Python's `round(q, nd)` on the exact rational value of a float:
`roundHalfEven (q * 10^nd) / 10^nd`. -/
def pyRound (nd : ℕ) (q : ℚ) : ℚ :=
  mkRat (roundHalfEven (qscale q (10 ^ nd))) (10 ^ nd)

/-! ### `normalize_output` (run_tests.py lines 60-69)

Recursively: lists and tuples become plain lists of normalized elements,
floats are rounded to 6 decimal digits, dict values are normalized key by
key, everything else passes through. -/

mutual

def normalize_output : Value → Value
  | Value.list xs => Value.list (normalizeList xs)
  | Value.tuple xs => Value.list (normalizeList xs)
  | Value.float q => Value.float (pyRound 6 q)
  | Value.dict kvs => Value.dict (normalizeDict kvs)
  | v => v

def normalizeList : List Value → List Value
  | [] => []
  | x :: xs => normalize_output x :: normalizeList xs

def normalizeDict : List (String × Value) → List (String × Value)
  | [] => []
  | (k, v) :: kvs => (k, normalize_output v) :: normalizeDict kvs

end

/-! ### Python structural equality `==`

Numbers compare cross-type (`True == 1 == 1.0` in Python); lists and tuples
never compare equal to each other; dicts compare as unordered key→value
maps.  The recursion is structural on the first argument. -/

/-- Numeric view of a value: Python treats `bool`, `int`, `float` as one
numeric tower for `==`. -/
def numVal : Value → Option ℚ
  | Value.bool b => some (if b then 1 else 0)
  | Value.int n => some (n : ℚ)
  | Value.float q => some q
  | _ => none

mutual

def pyEq : Value → Value → Bool
  | Value.null, Value.null => true
  | Value.str a, Value.str b => a == b
  | Value.list xs, Value.list ys => pyEqList xs ys
  | Value.tuple xs, Value.tuple ys => pyEqList xs ys
  | Value.dict xs, Value.dict ys => xs.length == ys.length && pyEqDict xs ys
  | a, b =>
    match numVal a, numVal b with
    | some x, some y => x == y
    | _, _ => false

def pyEqList : List Value → List Value → Bool
  | [], [] => true
  | x :: xs, y :: ys => pyEq x y && pyEqList xs ys
  | _, _ => false

def pyEqDict : List (String × Value) → List (String × Value) → Bool
  | [], _ => true
  | (k, v) :: rest, ys =>
    (match ys.lookup k with
     | some w => pyEq v w
     | none => false) && pyEqDict rest ys

end

/-- Python identity test of a value against the `None` singleton. -/
def isNull : Value → Bool
  | Value.null => true
  | _ => false

/-! ### `compare_outputs` (run_tests.py lines 72-88) -/

/-- The comparison rules applied to the two already-normalized values:
null demands exact null, two lists are length-checked then compared,
otherwise plain Python equality.  (Stated separately from `compare_outputs`
so that the phrase comparator-holds-on-the-normalized-values is
expressible.) -/
def comparatorHolds (a e : Value) : Bool :=
  if isNull e then isNull a
  else
    match e, a with
    | Value.list es, Value.list ys =>
      if es.length ≠ ys.length then false else pyEq (Value.list ys) (Value.list es)
    | _, _ => pyEq a e

/-- Embeds compare_outputs: normalize both values, handle `None`,
length-check lists, then Python equality. -/
def compare_outputs (actual expected : Value) : Bool :=
  let a := normalize_output actual
  let e := normalize_output expected
  if isNull e then isNull a
  else
    match e, a with
    | Value.list es, Value.list ys =>
      if es.length ≠ ys.length then false else pyEq (Value.list ys) (Value.list es)
    | _, _ => pyEq a e

/-! ### Test cases and single-test execution (run_tests.py lines 91-141)

A test case carries the fields read by `run_single_test` (with the loader's
defaults already applied: `id` falls back to the sentinel unknown,
`expected` to `None`, `explanation` to the empty string).  The complete
domain of candidate-call outcomes is `CallEvent`: either an outcome the
try/except of lines 109-139 handles — a normal return, a raise deriving
from Python's `Exception`, or the alarm's `TimeoutError` (`CallOutcome`) —
or a raise deriving from `BaseException` but not `Exception`
(`SystemExit`, `KeyboardInterrupt`, a user-defined `BaseException`
subclass), which no `except` clause in the file matches and which
propagates out of the executor (`CallEvent.baseRaise`).  The measured
wall-clock duration of the call, `(end_time - start_time) * 1000`, is a
parameter `elapsed_ms`; the code only reads it on the normal-return
path. -/

structure TestCase where
  id : String
  input : List (String × Value)
  expected : Value
  explanation : String

/-- Call outcomes matched by the handlers inside `run_single_test`: a normal
return, a raise deriving from `Exception` (class name, message, formatted
traceback) caught at line 133, or the watchdog's `TimeoutError` caught at
line 131. -/
inductive CallOutcome where
  | ret : Value → CallOutcome
  | exn : String → String → String → CallOutcome
  | timeout : CallOutcome

/-- A raise deriving from `BaseException` but not `Exception` (class name
and message): `except Exception` on line 133 does not match it. -/
structure BaseFault where
  cname : String
  msg : String
deriving DecidableEq, Repr

/-- The complete domain of candidate-call outcomes: an outcome the
executor's handlers match (`within`), or a `BaseException`-derived raise
that escapes them (`baseRaise`). -/
inductive CallEvent where
  | within : CallOutcome → CallEvent
  | baseRaise : String → String → CallEvent

structure TestResult where
  id : String
  input : List (String × Value)
  expected : Value
  explanation : String
  passed : Bool
  output : Value
  error : Option String
  execution_time_ms : ℚ
  traceback : Option String

/-- The timeout error message built on line 132: the literal text
Timeout, execution exceeded N seconds. -/
def timeoutMessage (timeout_seconds : ℤ) : String :=
  "Timeout: execution exceeded " ++ toString timeout_seconds ++ " seconds"

/-- Embeds run_single_test of a candidate callable on one test case, for
the call outcomes its try/except handlers match (`CallOutcome`); the
complete fault domain, including the `BaseException`-derived raises that
escape those handlers, is `run_single_test_full` below.

Besides the produced result dict, the second component records the ordered
list of `signal.alarm(n)` calls the code executes on this path (only when
`hasattr(signal, 'SIGALRM')`): the arming call at entry, the disarming
`alarm(0)` after a successful call, and the unconditional `alarm(0)` in the
`finally` block. -/
def run_single_test (sigalrm : Bool) (call : CallOutcome) (elapsed_ms : ℚ)
    (tc : TestCase) (timeout_seconds : ℤ) : TestResult × List ℤ :=
  let result0 : TestResult :=
    { id := tc.id, input := tc.input, expected := tc.expected,
      explanation := tc.explanation, passed := false, output := Value.null,
      error := none, execution_time_ms := 0, traceback := none }
  let arm : List ℤ := if sigalrm then [timeout_seconds] else []
  let disarm : List ℤ := if sigalrm then [0] else []
  match call with
  | CallOutcome.ret v =>
    ({ result0 with
         execution_time_ms := pyRound 2 elapsed_ms,
         output := v,
         passed := compare_outputs v tc.expected },
     arm ++ disarm ++ disarm)
  | CallOutcome.timeout =>
    ({ result0 with error := some (timeoutMessage timeout_seconds) },
     arm ++ disarm)
  | CallOutcome.exn cname msg tb =>
    ({ result0 with error := some (cname ++ ": " ++ msg), traceback := some tb },
     arm ++ disarm)

/-- Embeds run_single_test over the complete fault domain.  An outcome the
handlers match produces a `TestResult` as above; a `BaseException`-derived
raise matches neither `except TimeoutError` (line 131) nor
`except Exception` (line 133), so only the `finally` block runs (the
unconditional `alarm(0)` disarm, recorded in the second component) and the
raise propagates to the caller as `Except.error`. -/
def run_single_test_full (sigalrm : Bool) (ev : CallEvent) (elapsed_ms : ℚ)
    (tc : TestCase) (timeout_seconds : ℤ) : Except BaseFault TestResult × List ℤ :=
  match ev with
  | CallEvent.within call =>
    let rops := run_single_test sigalrm call elapsed_ms tc timeout_seconds
    (Except.ok rops.1, rops.2)
  | CallEvent.baseRaise cname msg =>
    (Except.error { cname := cname, msg := msg },
     (if sigalrm then [timeout_seconds] else []) ++ (if sigalrm then [0] else []))

/-! ### Entry-point detection (run_tests.py lines 144-168)

The candidate namespace is the ordered mapping produced by executing the
candidate source: name to whether the bound object is callable.  Python's
string operations used on the starter code are reimplemented on `List Char`
(Python semantics, kernel-reducible). -/

/-- The whitespace set stripped by Python str.strip (ASCII). -/
def isPySpace (c : Char) : Bool :=
  c = ' ' || c = '\t' || c = '\n' || c = '\r' || c = '\x0b' || c = '\x0c'

/-- Python str.strip on a character list. -/
def pyStrip (l : List Char) : List Char :=
  ((l.dropWhile isPySpace).reverse.dropWhile isPySpace).reverse

/-- Python startswith for the four-character prefix def-space. -/
def startsWithDefSpace : List Char → Bool
  | 'd' :: 'e' :: 'f' :: ' ' :: _ => true
  | _ => false

/-- Python replace of the four-character pattern def-space by the empty
string: removes every non-overlapping occurrence, left to right. -/
def replaceDefSpace : List Char → List Char
  | 'd' :: 'e' :: 'f' :: ' ' :: rest => replaceDefSpace rest
  | c :: rest => c :: replaceDefSpace rest
  | [] => []

/-- Python str.split for a one-character separator. -/
def splitChar (sep : Char) : List Char → List (List Char)
  | [] => [[]]
  | c :: rest =>
    let r := splitChar sep rest
    if c = sep then [] :: r
    else
      match r with
      | [] => [[c]]
      | g :: gs => (c :: g) :: gs

/-- Membership-and-callability check: the name is bound in the namespace
and the bound object is callable. -/
def isCallable (ns : List (String × Bool)) (n : String) : Bool :=
  match ns.lookup n with
  | some c => c
  | none => false

/-- One iteration of the starter-code scan: strip the line, require the
def-space prefix, extract the declared function name (text before the first
opening parenthesis, with the def-space pattern removed and whitespace
stripped), and accept it if it names a callable. -/
def defLinePick (ns : List (String × Bool)) (line : List Char) : Option String :=
  let s := pyStrip line
  if startsWithDefSpace s then
    let fn : String := ⟨pyStrip (replaceDefSpace (s.takeWhile (fun c => c ≠ '(')))⟩
    if isCallable ns fn then some fn else none
  else none

/-- The fixed fallback list of conventional entry-point names (line 158). -/
def common_names : List String :=
  ["solve", "solution", "main", "find_asteroid_pair", "find_top_k_pairs"]

structure Problem where
  test_cases : List TestCase
  starter_code_python : String

inductive ErrKind where
  | fileNotFound : ErrKind
  | synErr : ErrKind
  | valueErr : ErrKind
  | other : ErrKind
deriving DecidableEq, Repr

/-- A raised Python exception as seen by `run_tests`' `except` clauses:
which clause catches it, the exception class name, `str(e)`, and the
formatted traceback. -/
structure PyErr where
  kind : ErrKind
  cname : String
  msg : String
  tb : String
deriving DecidableEq, Repr

/-- The `for line in starter_code.split("\n")` loop with early return. -/
def hintLoop (ns : List (String × Bool)) : List (List Char) → Option String
  | [] => none
  | line :: rest =>
    match defLinePick ns line with
    | some fn => some fn
    | none => hintLoop ns rest

/-- The `for name in common_names` loop with early return. -/
def commonLoop (ns : List (String × Bool)) : List String → Option String
  | [] => none
  | n :: rest => if isCallable ns n then some n else commonLoop ns rest

/-- The `for name, obj in namespace.items()` last-resort loop: first callable
whose name has no leading underscore and is not among `dir(__builtins__)`
(the latter supplied by the host environment as `builtins`). -/
def scanLoop (builtins : List String) : List (String × Bool) → Option String
  | [] => none
  | (nm, c) :: rest =>
    if c && !nm.startsWith "_" && !builtins.contains nm then some nm
    else scanLoop builtins rest

/-- Embeds detect_function_name: starter-code hint scan, then the fallback
name list, then the namespace scan, else a ValueError. -/
def detect_function_name (p : Problem) (ns : List (String × Bool))
    (builtins : List String) : Except PyErr String :=
  match hintLoop ns (splitChar '\n' p.starter_code_python.data) with
  | some fn => Except.ok fn
  | none =>
    match commonLoop ns common_names with
    | some n => Except.ok n
    | none =>
      match scanLoop builtins ns with
      | some nm => Except.ok nm
      | none =>
        Except.error
          { kind := ErrKind.valueErr, cname := "ValueError",
            msg := "Could not detect function to test", tb := "" }

/-! ### Candidate loading (run_tests.py lines 38-57)

Reading and `exec`-ing the candidate source is abstracted: `ExecOutcome`
says whether the file compiled and ran to completion (yielding the
namespace), failed to parse, or raised during top-level execution.
`import_user_solution` wraps these faults exactly as the code does. -/

inductive ExecOutcome where
  | ok : List (String × Bool) → ExecOutcome
  | badParse : String → ExecOutcome
  | raised : String → String → ExecOutcome

def import_user_solution (fileExists : Bool) (solution_path : String)
    (ex : ExecOutcome) : Except PyErr (List (String × Bool)) :=
  if !fileExists then
    Except.error
      { kind := ErrKind.fileNotFound, cname := "FileNotFoundError",
        msg := "Solution file not found: " ++ solution_path, tb := "" }
  else
    match ex with
    | ExecOutcome.ok ns => Except.ok ns
    | ExecOutcome.badParse m =>
      Except.error
        { kind := ErrKind.synErr, cname := "SyntaxError",
          msg := "Syntax error in solution: " ++ m, tb := "" }
    | ExecOutcome.raised _cname m =>
      Except.error
        { kind := ErrKind.other, cname := "RuntimeError",
          msg := "Error loading solution: " ++ m, tb := "" }

/-! ### Result aggregation (run_tests.py lines 171-225) -/

structure RunReport where
  success : Bool
  total : ℕ
  passed : ℕ
  failed : ℕ
  results : List TestResult
  error : Option String
  traceback : Option String

/-- The initial `results` dict of `run_tests` (lines 173-180). -/
def initReport : RunReport :=
  { success := true, total := 0, passed := 0, failed := 0, results := [],
    error := none, traceback := none }

/-- The error string produced by the except clauses of run_tests: the
plain message for file-not-found and value errors, a Syntax Error prefix
for syntax errors, and an Unexpected error prefix naming the exception
class otherwise. -/
def top_error_string (e : PyErr) : String :=
  match e.kind with
  | ErrKind.fileNotFound => e.msg
  | ErrKind.synErr => "Syntax Error: " ++ e.msg
  | ErrKind.valueErr => e.msg
  | ErrKind.other => "Unexpected error: " ++ e.cname ++ ": " ++ e.msg

/-- Effect of an `except` clause on the report built so far: mark failure,
record the message, and (generic clause only) attach the traceback. -/
def reportErr (r : RunReport) (e : PyErr) : RunReport :=
  { r with
      success := false,
      error := some (top_error_string e),
      traceback := if e.kind = ErrKind.other then some e.tb else r.traceback }

/-- The `for test_case in test_cases` loop (lines 202-209): append each
result and bump exactly one of the counters. -/
def runLoop (step : TestCase → TestResult) (acc : RunReport) :
    List TestCase → RunReport
  | [] => acc
  | tc :: rest =>
    let tr := step tc
    runLoop step
      { acc with
          results := acc.results ++ [tr],
          passed := if tr.passed then acc.passed + 1 else acc.passed,
          failed := if tr.passed then acc.failed else acc.failed + 1 }
      rest

/-- Embeds run_tests, the top-level aggregation pipeline.

The file-system interactions are the `Except`-valued parameters: `loadP` is
the outcome of `load_problem` (the parsed problem or the raised error) and
`importS` the outcome of `import_user_solution`.  `behave fn tc` gives the
outcome and measured duration of calling `namespace[fn](**tc.input)`. -/
def run_tests (loadP : Except PyErr Problem)
    (importS : Except PyErr (List (String × Bool)))
    (builtins : List String) (sigalrm : Bool)
    (behave : String → TestCase → CallOutcome × ℚ) : RunReport :=
  match loadP with
  | Except.error e => reportErr initReport e
  | Except.ok problem =>
    if problem.test_cases.isEmpty then
      { initReport with
          success := false,
          error := some "No test cases found in problem definition" }
    else
      let r1 := { initReport with total := problem.test_cases.length }
      match importS with
      | Except.error e => reportErr r1 e
      | Except.ok ns =>
        match detect_function_name problem ns builtins with
        | Except.error e => reportErr r1 e
        | Except.ok func_name =>
          runLoop
            (fun tc =>
              (run_single_test sigalrm (behave func_name tc).1
                (behave func_name tc).2 tc 2).1)
            r1 problem.test_cases

/-- The test-case loop over the complete fault domain: a step whose call
raised a `BaseException`-derived fault aborts the loop and propagates the
fault (no `TestResult` is appended, no counter bumped, the remaining test
cases never run). -/
def runLoopFull (step : TestCase → Except BaseFault TestResult) (acc : RunReport) :
    List TestCase → Except BaseFault RunReport
  | [] => Except.ok acc
  | tc :: rest =>
    match step tc with
    | Except.error b => Except.error b
    | Except.ok tr =>
      runLoopFull step
        { acc with
            results := acc.results ++ [tr],
            passed := if tr.passed then acc.passed + 1 else acc.passed,
            failed := if tr.passed then acc.failed else acc.failed + 1 }
        rest

/-- Embeds run_tests over the complete fault domain.  The except clauses of
lines 211-222 catch at most `Exception`, so a `BaseException`-derived raise
escaping `run_single_test` also escapes `run_tests` (and `main`, which has
no handler at all): the process terminates with no report printed —
`Except.error` here. -/
def run_tests_full (loadP : Except PyErr Problem)
    (importS : Except PyErr (List (String × Bool)))
    (builtins : List String) (sigalrm : Bool)
    (behave : String → TestCase → CallEvent × ℚ) : Except BaseFault RunReport :=
  match loadP with
  | Except.error e => Except.ok (reportErr initReport e)
  | Except.ok problem =>
    if problem.test_cases.isEmpty then
      Except.ok
        { initReport with
            success := false,
            error := some "No test cases found in problem definition" }
    else
      let r1 := { initReport with total := problem.test_cases.length }
      match importS with
      | Except.error e => Except.ok (reportErr r1 e)
      | Except.ok ns =>
        match detect_function_name problem ns builtins with
        | Except.error e => Except.ok (reportErr r1 e)
        | Except.ok func_name =>
          runLoopFull
            (fun tc =>
              (run_single_test_full sigalrm (behave func_name tc).1
                (behave func_name tc).2 tc 2).1)
            r1 problem.test_cases

/-- The exit status computed by main on line 246: zero when the report is
successful with no failed tests, one otherwise. -/
def main_exit_code (r : RunReport) : ℕ :=
  if r.success && r.failed == 0 then 0 else 1

/-! ### Concrete fixtures (spec §8, Scenario A) -/

def tcAdd : TestCase :=
  { id := "t1", input := [("a", Value.int 1), ("b", Value.int 2)],
    expected := Value.int 3, explanation := "" }

def pAdd : Problem :=
  { test_cases := [tcAdd],
    starter_code_python := "def add(a, b):\n    return a + b" }

def nsAdd : List (String × Bool) := [("__builtins__", false), ("add", true)]

def builtinsEx : List String := ["abs", "len", "print", "range"]

def behaveAdd : String → TestCase → CallOutcome × ℚ :=
  fun _ _ => (CallOutcome.ret (Value.int 3), mkRat 3 2000)

/-! ### Further fixtures used by the claim witnesses -/

/-- A test case whose expected value is `None`. -/
def tcNone : TestCase :=
  { id := "t0", input := [], expected := Value.null, explanation := "" }

/-- A problem definition with zero test cases. -/
def pEmptyTests : Problem := { test_cases := [], starter_code_python := "" }

/-- A candidate whose entry point raises on every call. -/
def behaveRaise : String → TestCase → CallOutcome × ℚ :=
  fun _ _ => (CallOutcome.exn "TypeError" "unexpected keyword argument" "tb", 1)

/-- The import outcome for an absent candidate file. -/
def importMissing : Except PyErr (List (String × Bool)) :=
  import_user_solution false "/code/solution.py" (ExecOutcome.ok [])

/-- A candidate whose entry point raises a bare `SystemExit` on every call —
`SystemExit` derives from `BaseException`, not `Exception`, and is reachable
from the seeded builtins (line 48). -/
def behaveSystemExit : String → TestCase → CallEvent × ℚ :=
  fun _ _ => (CallEvent.baseRaise "SystemExit" "", 1)

/-- The exact rational value of the IEEE-754 double `0.1 + 0.2`
(`0.30000000000000004440892098500626…` = `1351079888211149 / 2^52`). -/
def double_01_plus_02 : ℚ := mkRat 1351079888211149 4503599627370496

/-- The exact rational value of the IEEE-754 double `0.3`
(`0.29999999999999998889776975374843…` = `5404319552844595 / 2^54`). -/
def double_03 : ℚ := mkRat 5404319552844595 18014398509481984

/-! ### Spec-side entry-point resolution (spec §4.3)

Written from the specification's wording — an ordered selection with first
match winning — to be compared with `detect_function_name` above. -/

/-- Stage 1: the first function declared in the starter-code hint that names
a callable in the namespace. -/
def hint_pick (starter : String) (ns : List (String × Bool)) : Option String :=
  (splitChar '\n' starter.data).findSome? (defLinePick ns)

/-- Stage 2: the first conventional fallback name bound to a callable. -/
def fallback_pick (ns : List (String × Bool)) : Option String :=
  common_names.find? (fun n => isCallable ns n)

/-- Stage 3: the first callable in namespace iteration order whose name has
no leading underscore and is not a built-in. -/
def scan_pick (builtins : List String) (ns : List (String × Bool)) : Option String :=
  (ns.find? (fun nc => nc.2 && !nc.1.startsWith "_" && !builtins.contains nc.1)).map Prod.fst

/-- The resolver as the spec states it: stage 1, else stage 2, else stage 3,
else an entry-point-not-found error. -/
def entry_point_resolution_spec (p : Problem) (ns : List (String × Bool))
    (builtins : List String) : Except PyErr String :=
  match hint_pick p.starter_code_python ns with
  | some fn => Except.ok fn
  | none =>
    match fallback_pick ns with
    | some n => Except.ok n
    | none =>
      match scan_pick builtins ns with
      | some nm => Except.ok nm
      | none =>
        Except.error
          { kind := ErrKind.valueErr, cname := "ValueError",
            msg := "Could not detect function to test", tb := "" }

/-! ### Recursive predicate: every float in the tree is a 6-digit fixed
point (used to state claim C9). -/

mutual

def floatsRounded : Value → Bool
  | Value.float q => pyRound 6 q == q
  | Value.list xs => floatsRoundedList xs
  | Value.tuple xs => floatsRoundedList xs
  | Value.dict kvs => floatsRoundedDict kvs
  | _ => true

def floatsRoundedList : List Value → Bool
  | [] => true
  | x :: xs => floatsRounded x && floatsRoundedList xs

def floatsRoundedDict : List (String × Value) → Bool
  | [] => true
  | (_, v) :: kvs => floatsRounded v && floatsRoundedDict kvs

end

/-! ## Lemmas -/

lemma qscale_eq (q : ℚ) (p : ℕ) : qscale q p = q * (p : ℚ) := by
  unfold qscale
  rw [Rat.mkRat_eq_divInt, Rat.divInt_eq_div]
  push_cast
  rw [show ((q.num : ℚ) * (p : ℚ)) / (q.den : ℚ)
        = ((q.num : ℚ) / (q.den : ℚ)) * (p : ℚ) from by ring,
    Rat.num_div_den]

lemma fdiv_one_int (n : ℤ) : Int.fdiv n 1 = n := Int.fdiv_one n

lemma roundHalfEven_intCast (n : ℤ) : roundHalfEven ((n : ℚ)) = n := by
  unfold roundHalfEven
  simp [Rat.num_intCast, Rat.den_intCast, fdiv_one_int]

lemma pyRound_idem (nd : ℕ) (q : ℚ) : pyRound nd (pyRound nd q) = pyRound nd q := by
  unfold pyRound
  have h1 : qscale (mkRat (roundHalfEven (qscale q (10 ^ nd))) (10 ^ nd)) (10 ^ nd)
      = ((roundHalfEven (qscale q (10 ^ nd)) : ℤ) : ℚ) := by
    rw [qscale_eq, Rat.mkRat_eq_divInt, Rat.divInt_eq_div]
    push_cast
    rw [div_mul_cancel₀]
    exact pow_ne_zero _ (by norm_num)
  rw [h1, roundHalfEven_intCast]

lemma isNull_normalize (v : Value) : isNull (normalize_output v) = isNull v := by
  cases v <;> simp [normalize_output, isNull]

lemma isNull_true_iff (v : Value) : isNull v = true ↔ v = Value.null := by
  cases v <;> simp [isNull]

lemma compare_outputs_eq_comparator (a e : Value) :
    compare_outputs a e = comparatorHolds (normalize_output a) (normalize_output e) := rfl

mutual

theorem floatsRounded_normalize : ∀ v : Value, floatsRounded (normalize_output v) = true
  | Value.null => rfl
  | Value.bool _ => rfl
  | Value.int _ => rfl
  | Value.str _ => rfl
  | Value.float q => by
    simp only [normalize_output, floatsRounded, pyRound_idem, beq_self_eq_true]
  | Value.list xs => by
    simp only [normalize_output, floatsRounded]
    exact floatsRoundedList_normalizeList xs
  | Value.tuple xs => by
    simp only [normalize_output, floatsRounded]
    exact floatsRoundedList_normalizeList xs
  | Value.dict kvs => by
    simp only [normalize_output, floatsRounded]
    exact floatsRoundedDict_normalizeDict kvs

theorem floatsRoundedList_normalizeList :
    ∀ xs : List Value, floatsRoundedList (normalizeList xs) = true
  | [] => rfl
  | x :: xs => by
    simp only [normalizeList, floatsRoundedList, Bool.and_eq_true]
    exact ⟨floatsRounded_normalize x, floatsRoundedList_normalizeList xs⟩

theorem floatsRoundedDict_normalizeDict :
    ∀ kvs : List (String × Value), floatsRoundedDict (normalizeDict kvs) = true
  | [] => rfl
  | (_, v) :: kvs => by
    simp only [normalizeDict, floatsRoundedDict, Bool.and_eq_true]
    exact ⟨floatsRounded_normalize v, floatsRoundedDict_normalizeDict kvs⟩

end

lemma runLoop_spec (step : TestCase → TestResult) (acc : RunReport) (l : List TestCase) :
    (runLoop step acc l).results = acc.results ++ l.map step
    ∧ (runLoop step acc l).passed + (runLoop step acc l).failed
        = acc.passed + acc.failed + l.length
    ∧ (runLoop step acc l).total = acc.total
    ∧ (runLoop step acc l).success = acc.success
    ∧ (runLoop step acc l).error = acc.error := by
  induction l generalizing acc with
  | nil => simp [runLoop]
  | cons tc rest ih =>
    obtain ⟨h1, h2, h3, h4, h5⟩ :=
      ih { acc with
             results := acc.results ++ [step tc],
             passed := if (step tc).passed then acc.passed + 1 else acc.passed,
             failed := if (step tc).passed then acc.failed else acc.failed + 1 }
    refine ⟨?_, ?_, ?_, ?_, ?_⟩
    · simpa [runLoop] using h1
    · simp only [runLoop] at h2 ⊢
      by_cases hp : (step tc).passed <;> simp [hp] at h2 ⊢ <;> omega
    · simpa [runLoop] using h3
    · simpa [runLoop] using h4
    · simpa [runLoop] using h5

lemma hintLoop_eq_findSome (ns : List (String × Bool)) (l : List (List Char)) :
    hintLoop ns l = l.findSome? (defLinePick ns) := by
  induction l with
  | nil => rfl
  | cons line rest ih =>
    simp only [hintLoop, List.findSome?]
    cases defLinePick ns line <;> simp [ih]

lemma commonLoop_eq_find (ns : List (String × Bool)) (l : List String) :
    commonLoop ns l = l.find? (fun n => isCallable ns n) := by
  induction l with
  | nil => rfl
  | cons n rest ih =>
    simp only [commonLoop, List.find?]
    by_cases h : isCallable ns n <;> simp [h, ih]

lemma scanLoop_eq_find (builtins : List String) (l : List (String × Bool)) :
    scanLoop builtins l
      = (l.find? (fun nc => nc.2 && !nc.1.startsWith "_" && !builtins.contains nc.1)).map
          Prod.fst := by
  induction l with
  | nil => rfl
  | cons nc rest ih =>
    obtain ⟨nm, c⟩ := nc
    simp only [scanLoop, List.find?]
    cases h : (c && !nm.startsWith "_" && !builtins.contains nm) <;> simp [h, ih]

lemma run_tests_ok (p : Problem) (ns : List (String × Bool)) (builtins : List String)
    (sigalrm : Bool) (behave : String → TestCase → CallOutcome × ℚ) (fn : String)
    (he : p.test_cases.isEmpty = false)
    (hdet : detect_function_name p ns builtins = Except.ok fn) :
    run_tests (Except.ok p) (Except.ok ns) builtins sigalrm behave =
      runLoop
        (fun tc => (run_single_test sigalrm (behave fn tc).1 (behave fn tc).2 tc 2).1)
        { initReport with total := p.test_cases.length } p.test_cases := by
  simp [run_tests, he, hdet]

lemma runLoopFull_eq_ok (stepE : TestCase → Except BaseFault TestResult)
    (step : TestCase → TestResult) (hstep : ∀ tc, stepE tc = Except.ok (step tc))
    (acc : RunReport) (l : List TestCase) :
    runLoopFull stepE acc l = Except.ok (runLoop step acc l) := by
  induction l generalizing acc with
  | nil => rfl
  | cons tc rest ih =>
    simp only [runLoopFull, runLoop, hstep tc]
    exact ih _

lemma run_tests_full_within (loadP : Except PyErr Problem)
    (importS : Except PyErr (List (String × Bool)))
    (builtins : List String) (sigalrm : Bool)
    (behave : String → TestCase → CallOutcome × ℚ) :
    run_tests_full loadP importS builtins sigalrm
        (fun fn tc => (CallEvent.within (behave fn tc).1, (behave fn tc).2))
      = Except.ok (run_tests loadP importS builtins sigalrm behave) := by
  rcases loadP with e | p
  · rfl
  · by_cases he : p.test_cases.isEmpty
    · simp [run_tests_full, run_tests, he]
    · have he' : p.test_cases.isEmpty = false := by simpa using he
      rcases importS with e | ns
      · simp [run_tests_full, run_tests, he']
      · rcases hdet : detect_function_name p ns builtins with e | fn
        · simp [run_tests_full, run_tests, he', hdet]
        · simp only [run_tests_full, run_tests, he', hdet, Bool.false_eq_true, if_false]
          exact runLoopFull_eq_ok _
            (fun tc => (run_single_test sigalrm (behave fn tc).1 (behave fn tc).2 tc 2).1)
            (fun tc => rfl) _ p.test_cases

/-! ## Claims -/

/-- C1 counterexample: a candidate raising a bare `SystemExit` during the
first test case refutes the claim as stated.  `SystemExit` derives from
`BaseException` but not `Exception`, and is reachable from the seeded
builtins (line 48), so neither handler of `run_single_test` (lines 131-135)
nor any except clause of `run_tests` (lines 211-222) matches it: on the
Scenario-A problem the fault is recorded in no result's `error` field, the
remaining processing is aborted, and the run terminates with no report at
all (for a bare `SystemExit` the interpreter even exits with status 0) —
so not every possible candidate fault is caught, and the grading run can
crash on bad candidate code. -/
theorem base_exception_escape_counterexample :
    run_tests_full (Except.ok pAdd) (Except.ok nsAdd) builtinsEx true behaveSystemExit
      = Except.error { cname := "SystemExit", msg := "" } := rfl

/-- C1 amended: every fault raised during the candidate call that derives
from Python's `Exception` — a runtime exception of any class and message
(argument mismatches included) or the watchdog's timeout — is caught at the
`run_single_test` boundary and recorded in that single result's `error`
field, and whenever the pipeline reaches the test loop, one result is
produced per declared test case, so such faults neither abort the remaining
test cases nor crash the grading run (on the `Exception` domain,
`run_tests_full` always returns the report `run_tests` computes).  A raise
deriving from `BaseException` but not `Exception`, however, propagates out
of the executor uncaught and aborts the run with no report. -/
theorem exception_faults_contained (sigalrm : Bool) :
    (∀ (cname msg tb : String) (elapsed_ms : ℚ) (tc : TestCase) (ts : ℤ),
      (run_single_test sigalrm (CallOutcome.exn cname msg tb) elapsed_ms tc ts).1.error
        = some (cname ++ ": " ++ msg))
    ∧ (∀ (elapsed_ms : ℚ) (tc : TestCase) (ts : ℤ),
      (run_single_test sigalrm CallOutcome.timeout elapsed_ms tc ts).1.error
        = some (timeoutMessage ts))
    ∧ (∀ (p : Problem) (ns : List (String × Bool)) (builtins : List String)
        (behave : String → TestCase → CallOutcome × ℚ) (fn : String),
        detect_function_name p ns builtins = Except.ok fn →
        (run_tests (Except.ok p) (Except.ok ns) builtins sigalrm behave).results.length
          = p.test_cases.length)
    ∧ (∀ (cname msg : String) (elapsed_ms : ℚ) (tc : TestCase) (ts : ℤ),
      (run_single_test_full sigalrm (CallEvent.baseRaise cname msg) elapsed_ms tc ts).1
        = Except.error { cname := cname, msg := msg })
    ∧ (∀ (loadP : Except PyErr Problem) (importS : Except PyErr (List (String × Bool)))
        (builtins : List String) (behave : String → TestCase → CallOutcome × ℚ),
        run_tests_full loadP importS builtins sigalrm
            (fun fn tc => (CallEvent.within (behave fn tc).1, (behave fn tc).2))
          = Except.ok (run_tests loadP importS builtins sigalrm behave)) := by
  refine ⟨fun _ _ _ _ _ _ => rfl, fun _ _ _ => rfl, ?_, fun _ _ _ _ _ => rfl,
    fun loadP importS builtins behave =>
      run_tests_full_within loadP importS builtins sigalrm behave⟩
  intro p ns builtins behave fn hdet
  cases hcc : p.test_cases with
  | nil =>
    have he : p.test_cases.isEmpty = true := by rw [hcc]; rfl
    simp [run_tests, he, hcc, initReport]
  | cons a l =>
    have he' : p.test_cases.isEmpty = false := by rw [hcc]; rfl
    rw [run_tests_ok p ns builtins sigalrm behave fn he' hdet]
    obtain ⟨h1, _, _, _, _⟩ := runLoop_spec
      (fun tc => (run_single_test sigalrm (behave fn tc).1 (behave fn tc).2 tc 2).1)
      { initReport with total := p.test_cases.length } p.test_cases
    rw [h1]
    simp [initReport, hcc]

/-- C1 witness: a candidate raising `TypeError` (an `Exception` subclass) on
every call still yields one result per test case. -/
theorem exception_faults_contained_witness :
    (run_tests (Except.ok pAdd) (Except.ok nsAdd) builtinsEx true behaveRaise).results.length
      = pAdd.test_cases.length :=
  (exception_faults_contained true).2.2.1 pAdd nsAdd builtinsEx behaveRaise "add" rfl

/-- C2 counterexample: on a timeout, `execution_time_ms` is left at its
initial `0` even though the call consumed 2500 measured milliseconds —
lines 121-122 of run_tests.py run only after a normal return, so the elapsed
time is not recorded regardless of outcome. -/
theorem execution_time_ms_timeout_counterexample :
    (run_single_test true CallOutcome.timeout 2500 tcAdd 2).1.execution_time_ms = 0
    ∧ (run_single_test true CallOutcome.timeout 2500 tcAdd 2).1.execution_time_ms ≠ 2500 := by
  exact ⟨rfl, by decide⟩

/-- C2 amended: `execution_time_ms` records the (2-digit-rounded) elapsed
wall-clock milliseconds only when the candidate call returns normally; on a
timeout or a raised fault it keeps its initial value 0. -/
theorem execution_time_ms_only_on_normal_return
    (sigalrm : Bool) (v : Value) (cname msg tb : String) (elapsed_ms : ℚ)
    (tc : TestCase) (ts : ℤ) :
    (run_single_test sigalrm (CallOutcome.ret v) elapsed_ms tc ts).1.execution_time_ms
        = pyRound 2 elapsed_ms
    ∧ (run_single_test sigalrm CallOutcome.timeout elapsed_ms tc ts).1.execution_time_ms = 0
    ∧ (run_single_test sigalrm (CallOutcome.exn cname msg tb) elapsed_ms
          tc ts).1.execution_time_ms = 0 :=
  ⟨rfl, rfl, rfl⟩

/-- C3: when the candidate call completes, `passed` equals the comparator
applied to the normalized actual and expected values; and when the expected
value is null, `passed` holds exactly when the actual output is exactly null
(normalization maps nothing else to null). -/
theorem passed_iff_comparator_holds (sigalrm : Bool) (v : Value) (elapsed_ms : ℚ)
    (tc : TestCase) (ts : ℤ) :
    ((run_single_test sigalrm (CallOutcome.ret v) elapsed_ms tc ts).1.passed
        = comparatorHolds (normalize_output v) (normalize_output tc.expected))
    ∧ (tc.expected = Value.null →
        (((run_single_test sigalrm (CallOutcome.ret v) elapsed_ms tc ts).1.passed = true)
          ↔ v = Value.null)) := by
  constructor
  · rfl
  · intro h
    have hps : (run_single_test sigalrm (CallOutcome.ret v) elapsed_ms tc ts).1.passed
        = compare_outputs v tc.expected := rfl
    rw [hps, h, compare_outputs_eq_comparator]
    have h0 : normalize_output Value.null = Value.null := rfl
    rw [h0]
    have h1 : comparatorHolds (normalize_output v) Value.null
        = isNull (normalize_output v) := rfl
    rw [h1, isNull_normalize]
    exact isNull_true_iff v

/-- C3 witness: a call returning `None` against an expected `None` passes. -/
theorem passed_iff_comparator_holds_witness :
    (run_single_test true (CallOutcome.ret Value.null) 1 tcNone 2).1.passed = true :=
  ((passed_iff_comparator_holds true Value.null 1 tcNone 2).2 rfl).mpr rfl

/-- C4: a report with `success = true` satisfies `total = len(results)` and
`passed + failed = total`, and its results are exactly the per-test runs of
the declared test cases in declaration order. -/
theorem success_report_invariants
    (loadP : Except PyErr Problem) (importS : Except PyErr (List (String × Bool)))
    (builtins : List String) (sigalrm : Bool)
    (behave : String → TestCase → CallOutcome × ℚ) (r : RunReport)
    (hr : r = run_tests loadP importS builtins sigalrm behave)
    (hs : r.success = true) :
    r.total = r.results.length
    ∧ r.passed + r.failed = r.total
    ∧ ∃ p ns fn, loadP = Except.ok p ∧ importS = Except.ok ns
        ∧ detect_function_name p ns builtins = Except.ok fn
        ∧ r.results = p.test_cases.map
            (fun tc => (run_single_test sigalrm (behave fn tc).1 (behave fn tc).2 tc 2).1) := by
  subst hr
  rcases loadP with e | p
  · simp [run_tests, reportErr] at hs
  · by_cases he : p.test_cases.isEmpty
    · simp [run_tests, he] at hs
    · have he' : p.test_cases.isEmpty = false := by simpa using he
      rcases importS with e | ns
      · simp [run_tests, he', reportErr] at hs
      · rcases hdet : detect_function_name p ns builtins with e | fn
        · simp [run_tests, he', hdet, reportErr] at hs
        · rw [run_tests_ok p ns builtins sigalrm behave fn he' hdet]
          obtain ⟨h1, h2, h3, _, _⟩ := runLoop_spec
            (fun tc => (run_single_test sigalrm (behave fn tc).1 (behave fn tc).2 tc 2).1)
            { initReport with total := p.test_cases.length } p.test_cases
          refine ⟨?_, ?_, p, ns, fn, rfl, rfl, hdet, ?_⟩
          · rw [h3, h1]; simp [initReport]
          · rw [h2, h3]; simp [initReport]
          · rw [h1]; simp [initReport]

/-- C4 witness: the Scenario-A run (one passing test) satisfies
`total = len(results)`. -/
theorem success_report_invariants_witness :
    (run_tests (Except.ok pAdd) (Except.ok nsAdd) builtinsEx true behaveAdd).total
      = (run_tests (Except.ok pAdd) (Except.ok nsAdd) builtinsEx true behaveAdd).results.length :=
  (success_report_invariants (Except.ok pAdd) (Except.ok nsAdd) builtinsEx true behaveAdd
    (run_tests (Except.ok pAdd) (Except.ok nsAdd) builtinsEx true behaveAdd) rfl rfl).1

/-- C5: a timed-out call yields `passed = false`, `output = null` and the
timeout error message; and on every exit path (normal return, fault,
timeout) the last `signal.alarm` call executed is `alarm(0)`, so the
watchdog is disarmed and cannot leak into the next test case. -/
theorem timeout_result_and_watchdog_disarm (elapsed_ms : ℚ) (tc : TestCase) (ts : ℤ)
    (call : CallOutcome) :
    (run_single_test true CallOutcome.timeout elapsed_ms tc ts).1.passed = false
    ∧ (run_single_test true CallOutcome.timeout elapsed_ms tc ts).1.output = Value.null
    ∧ (run_single_test true CallOutcome.timeout elapsed_ms tc ts).1.error
        = some (timeoutMessage ts)
    ∧ (run_single_test true call elapsed_ms tc ts).2.getLast? = some 0 := by
  refine ⟨rfl, rfl, rfl, ?_⟩
  cases call <;> rfl

/-- C6: the entry-point resolver is exactly the spec's deterministic ordered
selection — starter-code hint, then the fixed fallback list in priority
order, then the first non-underscore non-builtin callable in namespace
order, else an entry-point-not-found error. -/
theorem detect_function_name_matches_resolution_order
    (p : Problem) (ns : List (String × Bool)) (builtins : List String) :
    detect_function_name p ns builtins = entry_point_resolution_spec p ns builtins := by
  unfold detect_function_name entry_point_resolution_spec hint_pick fallback_pick scan_pick
  rw [hintLoop_eq_findSome, commonLoop_eq_find, scanLoop_eq_find]

/-- C7: a problem that loads with zero test cases is a hard failure:
`success = false`, the no-test-cases error, empty results (and zero
counters) — never an empty-success report. -/
theorem zero_test_cases_hard_failure
    (importS : Except PyErr (List (String × Bool))) (builtins : List String)
    (sigalrm : Bool) (behave : String → TestCase → CallOutcome × ℚ)
    (p : Problem) (h : p.test_cases = []) :
    run_tests (Except.ok p) importS builtins sigalrm behave
      = { success := false, total := 0, passed := 0, failed := 0, results := [],
          error := some "No test cases found in problem definition",
          traceback := none } := by
  have he : p.test_cases.isEmpty = true := by rw [h]; rfl
  simp [run_tests, he, initReport]

/-- C7 witness: the empty-tests problem produces exactly the hard-failure
report. -/
theorem zero_test_cases_hard_failure_witness :
    run_tests (Except.ok pEmptyTests) (Except.ok nsAdd) builtinsEx true behaveAdd
      = { success := false, total := 0, passed := 0, failed := 0, results := [],
          error := some "No test cases found in problem definition",
          traceback := none } :=
  zero_test_cases_hard_failure (Except.ok nsAdd) builtinsEx true behaveAdd pEmptyTests rfl

/-- C8: the process exit status is 0 exactly when the report has
`success = true` and `failed = 0`, and 1 otherwise. -/
theorem exit_status_zero_iff_clean_success
    (loadP : Except PyErr Problem) (importS : Except PyErr (List (String × Bool)))
    (builtins : List String) (sigalrm : Bool)
    (behave : String → TestCase → CallOutcome × ℚ) :
    main_exit_code (run_tests loadP importS builtins sigalrm behave) = 0
      ↔ ((run_tests loadP importS builtins sigalrm behave).success = true
          ∧ (run_tests loadP importS builtins sigalrm behave).failed = 0) := by
  have h : ∀ r : RunReport, main_exit_code r = 0 ↔ (r.success = true ∧ r.failed = 0) := by
    intro r
    by_cases hs : r.success <;> by_cases hf : r.failed = 0 <;>
      simp [main_exit_code, hs, hf]
  exact h _

/-- C9: normalization rounds every float, at any nesting depth, to 6 decimal
digits (every float in a normalized value is a 6-digit fixed point), and in
particular an actual output equal to the double `0.1 + 0.2` compares equal
to an expected value of `0.3`. -/
theorem normalization_rounds_floats_to_6_digits :
    (∀ v : Value, floatsRounded (normalize_output v) = true)
    ∧ compare_outputs (Value.float double_01_plus_02) (Value.float double_03) = true :=
  ⟨floatsRounded_normalize, by decide⟩

/-- C10: when the problem loads with `n ≥ 1` test cases but candidate import
or entry-point resolution fails, the report is a failure with a populated
error and empty results, yet `total` was already set to `n` (line 192 runs
before the import), so `total = len(results)` fails on such reports. -/
theorem failed_pipeline_keeps_nonzero_total
    (builtins : List String) (sigalrm : Bool)
    (behave : String → TestCase → CallOutcome × ℚ) (p : Problem)
    (importS : Except PyErr (List (String × Bool)))
    (hn : 0 < p.test_cases.length)
    (hfail : (∃ e, importS = Except.error e)
      ∨ (∃ ns e, importS = Except.ok ns
          ∧ detect_function_name p ns builtins = Except.error e))
    (r : RunReport) (hr : r = run_tests (Except.ok p) importS builtins sigalrm behave) :
    r.success = false ∧ r.error ≠ none ∧ r.results = []
    ∧ r.total = p.test_cases.length ∧ r.total ≠ r.results.length := by
  subst hr
  have he' : p.test_cases.isEmpty = false := by
    cases hcc : p.test_cases with
    | nil => rw [hcc] at hn; simp at hn
    | cons a l => rfl
  have conclude : ∀ e : PyErr,
      (reportErr { initReport with total := p.test_cases.length } e).success = false
      ∧ (reportErr { initReport with total := p.test_cases.length } e).error ≠ none
      ∧ (reportErr { initReport with total := p.test_cases.length } e).results = []
      ∧ (reportErr { initReport with total := p.test_cases.length } e).total
          = p.test_cases.length
      ∧ (reportErr { initReport with total := p.test_cases.length } e).total
          ≠ (reportErr { initReport with total := p.test_cases.length } e).results.length := by
    intro e
    refine ⟨rfl, by simp [reportErr], rfl, rfl, ?_⟩
    intro hq
    rw [show (reportErr { initReport with total := p.test_cases.length } e).total
          = p.test_cases.length from rfl,
      show ((reportErr { initReport with total := p.test_cases.length } e).results).length
          = 0 from rfl] at hq
    omega
  rcases hfail with ⟨e, hee⟩ | ⟨ns, e, hok, hdet⟩
  · subst hee
    have hrr : run_tests (Except.ok p) (Except.error e) builtins sigalrm behave
        = reportErr { initReport with total := p.test_cases.length } e := by
      simp [run_tests, he']
    rw [hrr]
    exact conclude e
  · subst hok
    have hrr : run_tests (Except.ok p) (Except.ok ns) builtins sigalrm behave
        = reportErr { initReport with total := p.test_cases.length } e := by
      simp [run_tests, he', hdet]
    rw [hrr]
    exact conclude e

/-- C10 witness: with a missing candidate file, the one-test problem yields
a failed report whose `total` is 1 but whose results are empty. -/
theorem failed_pipeline_keeps_nonzero_total_witness :
    (run_tests (Except.ok pAdd) importMissing builtinsEx true behaveAdd).success = false
    ∧ (run_tests (Except.ok pAdd) importMissing builtinsEx true behaveAdd).error ≠ none
    ∧ (run_tests (Except.ok pAdd) importMissing builtinsEx true behaveAdd).results = []
    ∧ (run_tests (Except.ok pAdd) importMissing builtinsEx true behaveAdd).total
        = pAdd.test_cases.length
    ∧ (run_tests (Except.ok pAdd) importMissing builtinsEx true behaveAdd).total
        ≠ (run_tests (Except.ok pAdd) importMissing builtinsEx true behaveAdd).results.length :=
  failed_pipeline_keeps_nonzero_total builtinsEx true behaveAdd pAdd importMissing
    (by decide)
    (Or.inl ⟨{ kind := ErrKind.fileNotFound, cname := "FileNotFoundError",
               msg := "Solution file not found: " ++ "/code/solution.py", tb := "" }, rfl⟩)
    (run_tests (Except.ok pAdd) importMissing builtinsEx true behaveAdd) rfl

end CortexLattice
